import Mathlib

/-!
Verification of the assertion library of the oxisto/assert repository.

The repository holds two historical variants of the same Go package:
  - an evolved variant that compares values with the go-cmp structural-diff
    engine (modelled in namespace Assert), and
  - an older variant that dispatches between protobuf semantic equality and
    the built-in equality operator (modelled in namespace AssertOld),
plus a test file exercising the evolved variant on pointers to a small
struct SomeStruct.

Modelling conventions.

The reporting sink (Go testing.T) is modelled as the list of reporting
actions a call emits: Event.errorf for t.Errorf (soft failure, test
continues) and Event.fatalf for t.Fatalf (hard failure, the current test
halts). A call halts exactly when its event list holds a fatalf.

Go pointers are modelled as Option (NNPtr A): none is the nil pointer, and
a non-nil pointer carries its address and the value it points to. The Go
equality operator on pointers compares addresses (opEqPtr); the go-cmp
engine dereferences and compares pointees (cmpEqPtr).

Go interface values of static type any are modelled by the closed universe
GoAny of the dynamic types the claims need; the nil interface is its own
constructor, distinct from a non-nil interface boxing a nil typed pointer.

Errors are modelled by GoError; allocation identity of errors (Go compares
error interfaces by pointer identity) is modelled by a numeric id carried
in every constructor, so that two independently constructed errors get
distinct ids and propositional equality of GoError coincides with Go
interface equality.

The generic Go functions format values with the reflection verbs %T and %v;
the Lean embeddings take the corresponding rendering functions as explicit
arguments and the file instantiates them, per type, with the concrete
strings Go produces.

The structural-diff engine (go-cmp) is an external collaborator consumed
through an equality contract; its documented semantics on this universe is
embedded concretely: the untyped nil argument is an invalid reflect value,
equal only to another invalid value; values of different dynamic types are
unequal; pointers are dereferenced; structs are compared field by field.
-/

/-- A reporting action sent to the testing sink: errorf records a soft
failure and the test continues, fatalf records a failure and halts the
current test. -/
inductive Event where
  | errorf (msg : String)
  | fatalf (msg : String)
deriving DecidableEq

/-- The struct used by the test file of the repository: type SomeStruct
with an int field A and a string field B. -/
structure SomeStruct where
  A : Int
  B : String
deriving DecidableEq

/-- A non-nil Go pointer: an address together with the pointed-to value. -/
structure NNPtr (α : Type) where
  addr : Nat
  val : α
deriving DecidableEq

/-- A Go pointer: nil or a non-nil pointer. -/
def Ptr (α : Type) : Type := Option (NNPtr α)

instance (α : Type) [DecidableEq α] : DecidableEq (Ptr α) := by
  unfold Ptr
  infer_instance

/-- The Go equality operator on pointers: nil equals nil, and two non-nil
pointers are equal exactly when their addresses coincide. -/
def opEqPtr {α : Type} : Ptr α → Ptr α → Bool
  | none, none => true
  | some p, some q => p.addr == q.addr
  | _, _ => false

/-- The go-cmp engine on pointers: nil equals nil, a nil and a non-nil
pointer are unequal, and two non-nil pointers are compared by their
pointees using the given pointee comparison. -/
def cmpEqPtr {α : Type} (eqv : α → α → Bool) : Ptr α → Ptr α → Bool
  | none, none => true
  | some p, some q => eqv p.val q.val
  | _, _ => false

/-- A Go error value. Go compares error interfaces by allocation identity,
modelled by the id field: distinct allocations carry distinct ids, so
propositional equality on GoError models Go interface equality. A wrap
node is an error produced by wrapping an inner error (fmt.Errorf with the
%w verb); msg is the string its Error method returns. -/
inductive GoError where
  | base (id : Nat) (msg : String)
  | wrap (id : Nat) (msg : String) (inner : GoError)
deriving DecidableEq

/-- The message of an error, as returned by its Error method and rendered
by the %v verb. -/
def errMsg : GoError → String
  | GoError.base _ m => m
  | GoError.wrap _ m _ => m

/-- The chain walk of the standard library errors.Is on a non-nil error
and a non-nil target: compare the current error to the target by interface
equality and otherwise unwrap. Only wrap nodes unwrap; base errors end the
chain. -/
def errorsIsChain : GoError → GoError → Bool
  | GoError.base i m, target => decide (GoError.base i m = target)
  | GoError.wrap i m inner, target =>
      decide (GoError.wrap i m inner = target) || errorsIsChain inner target

/-- The standard library errors.Is on error interface values (none is the
nil error): when either argument is nil the result is plain interface
equality, otherwise the chain of the first argument is walked looking for
the target. -/
def errorsIs : Option GoError → Option GoError → Bool
  | none, none => true
  | none, some _ => false
  | some _, none => false
  | some e, some t => errorsIsChain e t

/-- Membership of the target error in the chain of an error: the error is
the target itself, or wraps an error whose chain holds the target. This is
the specification notion of a chain-aware membership test. -/
inductive InChain (target : GoError) : GoError → Prop
  | here : InChain target target
  | there (i : Nat) (m : String) (inner : GoError) :
      InChain target inner → InChain target (GoError.wrap i m inner)

/-- The %T rendering of an error interface value: the nil error renders as
the nil marker, an error from errors.New has dynamic type errorString, a
wrapping error from fmt.Errorf has dynamic type wrapError. -/
def errTypeName : Option GoError → String
  | none => "<nil>"
  | some (GoError.base _ _) => "*errors.errorString"
  | some (GoError.wrap _ _ _) => "*fmt.wrapError"

/-- The %v rendering of an error interface value: the nil error renders as
the nil marker, a non-nil error renders as its message. -/
def errRender : Option GoError → String
  | none => "<nil>"
  | some e => errMsg e

/-- Lowercase hexadecimal rendering of a pointer address, as the %v verb
prints a non-nil pointer to a non-struct value. -/
def hexAddr (n : Nat) : String :=
  "0x" ++ String.mk (Nat.toDigits 16 n)

/-- The dynamic types appearing in the modelled universe of Go interface
values. -/
inductive GoType where
  | tInt
  | tString
  | tIntPtr
  | tStructPtr
deriving DecidableEq

/-- The name of a dynamic type, as the %T verb prints it. -/
def goTypeName : GoType → String
  | GoType.tInt => "int"
  | GoType.tString => "string"
  | GoType.tIntPtr => "*int"
  | GoType.tStructPtr => "*assert.SomeStruct"

/-- The modelled universe of Go values of static type any: the nil
interface itself, ints, strings, pointers to int and pointers to
SomeStruct. A non-nil interface boxing a nil typed pointer is a distinct
value from the nil interface. -/
inductive GoAny where
  | nilInterface
  | intVal (n : Int)
  | strVal (s : String)
  | intPtr (p : Ptr Int)
  | structPtr (p : Ptr SomeStruct)
deriving DecidableEq

/-- The dynamic type of an interface value; the nil interface has none. -/
def dynTypeOf : GoAny → Option GoType
  | GoAny.nilInterface => none
  | GoAny.intVal _ => some GoType.tInt
  | GoAny.strVal _ => some GoType.tString
  | GoAny.intPtr _ => some GoType.tIntPtr
  | GoAny.structPtr _ => some GoType.tStructPtr

/-- The Go type assertion value.(T): it yields the value itself when its
dynamic type is the target type, and fails otherwise (in particular on the
nil interface). -/
def typeAssert (T : GoType) (value : GoAny) : Option GoAny :=
  if dynTypeOf value = some T then some value else none

/-- The %T rendering of an interface value: the name of its dynamic type,
or the nil marker for the nil interface. -/
def goAnyTypeName : GoAny → String
  | GoAny.nilInterface => "<nil>"
  | v => match dynTypeOf v with
         | some T => goTypeName T
         | none => "<nil>"

/-- The %v rendering of an interface value: ints and strings print their
value, a nil pointer and the nil interface print the nil marker, a non-nil
pointer to int prints its address, and a non-nil pointer to a struct
prints an ampersand and the fields in braces. -/
def goAnyRender : GoAny → String
  | GoAny.nilInterface => "<nil>"
  | GoAny.intVal n => toString n
  | GoAny.strVal s => s
  | GoAny.intPtr none => "<nil>"
  | GoAny.intPtr (some p) => hexAddr p.addr
  | GoAny.structPtr none => "<nil>"
  | GoAny.structPtr (some p) =>
      "&\x7b" ++ toString p.val.A ++ " " ++ p.val.B ++ "\x7d"

/-- The go-cmp engine with no options on two values of static type any:
the nil interface is an invalid reflect value, equal only to the nil
interface; values of different dynamic types are unequal; ints and strings
compare by value; pointers are dereferenced. -/
def goCmpAny : GoAny → GoAny → Bool
  | GoAny.nilInterface, GoAny.nilInterface => true
  | GoAny.intVal m, GoAny.intVal n => m == n
  | GoAny.strVal s, GoAny.strVal t => s == t
  | GoAny.intPtr p, GoAny.intPtr q => cmpEqPtr (fun m n => m == n) p q
  | GoAny.structPtr p, GoAny.structPtr q =>
      cmpEqPtr (fun s t => decide (s = t)) p q
  | _, _ => false

/-- The Go equality operator on two values of static type any: equal
dynamic types and equal values, where pointers compare by address. -/
def opEqAny : GoAny → GoAny → Bool
  | GoAny.nilInterface, GoAny.nilInterface => true
  | GoAny.intVal m, GoAny.intVal n => m == n
  | GoAny.strVal s, GoAny.strVal t => s == t
  | GoAny.intPtr p, GoAny.intPtr q => opEqPtr p q
  | GoAny.structPtr p, GoAny.structPtr q => opEqPtr p q
  | _, _ => false

/-- The %T rendering of a *SomeStruct value: constant, the static pointer
type name. -/
def structPtrTypeName : Ptr SomeStruct → String :=
  fun _ => "*assert.SomeStruct"

/-- The %v rendering of a *SomeStruct value: the nil marker for the nil
pointer, otherwise an ampersand and the fields in braces. -/
def structPtrRender : Ptr SomeStruct → String
  | none => "<nil>"
  | some p => "&\x7b" ++ toString p.val.A ++ " " ++ p.val.B ++ "\x7d"

/-- The go-cmp engine with no options on two *SomeStruct values:
dereference and compare the structs field by field. -/
def cmpStructPtrEq : Ptr SomeStruct → Ptr SomeStruct → Bool :=
  cmpEqPtr (fun s t => decide (s = t))

/-- The %T rendering of a pointer to an interface variable, the type the
address-of expression inside NotNil produces. -/
def ptrAnyTypeName : Ptr GoAny → String :=
  fun _ => "*interface \x7b\x7d"

/-- The %v rendering of a pointer to an interface variable: the nil marker
or the address. -/
def ptrAnyRender : Ptr GoAny → String
  | none => "<nil>"
  | some p => hexAddr p.addr

/-- The go-cmp engine on error interface values with the expected side
fixed to the untyped nil literal, as NoError and Nil call it: nil against
nil is equal, nil against a non-nil error is unequal (invalid against
valid reflect value). The comparison of two non-nil errors is never
reached from NoError, whose expected argument is the nil literal, and is
kept as the parameter cmpNonNil of the embedding: on the concrete error
types of the standard library go-cmp would panic on their unexported
fields before producing a boolean. -/
def goCmpErr (cmpNonNil : GoError → GoError → Bool) :
    Option GoError → Option GoError → Bool
  | none, none => true
  | none, some _ => false
  | some _, none => false
  | some a, some b => cmpNonNil a b

/-- The Go equality operator on two error interface values: interface
equality, which the id fields of GoError make structural. -/
def opEqErr : Option GoError → Option GoError → Bool
  | none, none => true
  | some a, some b => decide (a = b)
  | _, _ => false

namespace Assert

/-- EqualsFunc of the evolved variant: evaluate the supplied equality
predicate on expected and actual; on a mismatch record one soft failure
formatted as the type of actual, an equals sign, the rendering of actual
and the rendering of expected. Returns the boolean together with the
reporting actions emitted. -/
def EqualsFunc {α : Type} (typeName render : α → String)
    (expected actual : α) (equals : α → α → Bool) : Bool × List Event :=
  let ok := equals expected actual
  (ok, if ok then []
       else [Event.errorf (typeName actual ++ " = " ++ render actual ++
              ", want " ++ render expected)])

/-- Equals of the evolved variant: EqualsFunc with the go-cmp engine
(cmp.Equal applied with the comparison options of the call, passed here as
the function cmpEq). -/
def Equals {α : Type} (typeName render : α → String)
    (cmpEq : α → α → Bool) (expected actual : α) : Bool × List Event :=
  EqualsFunc typeName render expected actual (fun e a => cmpEq e a)

/-- NotEquals of the evolved variant: succeed when the go-cmp engine finds
the values unequal; on failure record one soft failure whose format uses
an unequal sign between the type and the rendering of actual. -/
def NotEquals {α : Type} (typeName render : α → String)
    (cmpEq : α → α → Bool) (expected actual : α) : Bool × List Event :=
  let ok := !cmpEq expected actual
  (ok, if ok then []
       else [Event.errorf (typeName actual ++ " != " ++ render actual ++
              ", want " ++ render expected)])

/-- Is of the evolved variant: the type assertion value.(T). On success
the cast value is returned and nothing is reported; on failure the test is
halted fatally with a message formatting the value and the type of new(T),
which is the pointer type to T, so the printed type name carries a leading
star. The none result models that the call does not return. -/
def Is (T : GoType) (value : GoAny) : Option GoAny × List Event :=
  match typeAssert T value with
  | some cast => (some cast, [])
  | none => (none, [Event.fatalf (goAnyRender value ++
      " is not of type *" ++ goTypeName T)])

/-- NoError of the evolved variant: Equals of the untyped nil literal and
the error value. The go-cmp comparison of two non-nil errors is the
parameter cmpNonNil; NoError never consults it because its expected
argument is the nil literal. -/
def NoError (cmpNonNil : GoError → GoError → Bool)
    (err : Option GoError) : Bool × List Event :=
  Equals errTypeName errRender (goCmpErr cmpNonNil) none err

/-- NotNil of the evolved variant: NotEquals of the untyped nil literal
and the address of the local parameter value. Taking the address of the
parameter always yields a non-nil pointer, modelled as some pointer at the
arbitrary fresh address addr holding the parameter. When the inner check
fails the test is halted fatally. -/
def NotNil (addr : Nat) (value : GoAny) : Bool × List Event :=
  let r := NotEquals ptrAnyTypeName ptrAnyRender (cmpEqPtr goCmpAny)
    none (some (NNPtr.mk addr value))
  (r.1, r.2 ++ (if r.1 then []
    else [Event.fatalf ("variable of type " ++ goAnyTypeName value ++
      " should not be nil")]))

/-- Nil of the evolved variant: Equals of the untyped nil literal and the
value, compared by the go-cmp engine on interface values. -/
def Nil (value : GoAny) : Bool × List Event :=
  Equals goAnyTypeName goAnyRender goCmpAny GoAny.nilInterface value

/-- ErrorIs of the evolved variant: EqualsFunc with the predicate that
calls the standard library errors.Is on actual and expected. -/
def ErrorIs (expected actual : Option GoError) : Bool × List Event :=
  EqualsFunc errTypeName errRender expected actual
    (fun e a => errorsIs a e)

end Assert

namespace AssertOld

/-- EqualsFunc of the older variant: identical to the evolved one;
evaluate the predicate and record one soft failure on mismatch. -/
def EqualsFunc {α : Type} (typeName render : α → String)
    (expected actual : α) (equals : α → α → Bool) : Bool × List Event :=
  let ok := equals expected actual
  (ok, if ok then []
       else [Event.errorf (typeName actual ++ " = " ++ render actual ++
              ", want " ++ render expected)])

/-- Equals of the older variant: EqualsFunc with the default predicate
that checks whether the expected value is a protobuf message (the dynamic
type test modelled by isMsg) and then uses protobuf semantic equality,
falling back to the built-in equality operator opEq otherwise. -/
def Equals {α : Type} (typeName render : α → String) (isMsg : α → Bool)
    (protoEqual opEq : α → α → Bool)
    (expected actual : α) : Bool × List Event :=
  EqualsFunc typeName render expected actual
    (fun e a => if isMsg e then protoEqual e a else opEq e a)

/-- NotEquals of the older variant: succeed when the values are unequal
under the same dispatch between protobuf semantic equality and the
built-in operator; on failure record one soft failure, formatted with an
equals sign like EqualsFunc. -/
def NotEquals {α : Type} (typeName render : α → String) (isMsg : α → Bool)
    (protoEqual opEq : α → α → Bool)
    (expected actual : α) : Bool × List Event :=
  let ok := if isMsg expected then !protoEqual expected actual
            else !opEq expected actual
  (ok, if ok then []
       else [Event.errorf (typeName actual ++ " = " ++ render actual ++
              ", want " ++ render expected)])

/-- Is of the older variant: identical to the evolved one. -/
def Is (T : GoType) (value : GoAny) : Option GoAny × List Event :=
  match typeAssert T value with
  | some cast => (some cast, [])
  | none => (none, [Event.fatalf (goAnyRender value ++
      " is not of type *" ++ goTypeName T)])

/-- NoError of the older variant: Equals of the untyped nil literal and
the error value. The nil expected value is not a protobuf message, so the
built-in operator on error interfaces decides; the protobuf branch is
never taken and its equality argument is passed as the constantly false
function. -/
def NoError (err : Option GoError) : Bool × List Event :=
  Equals errTypeName errRender (fun _ => false) (fun _ _ => false)
    opEqErr none err

/-- NotNil of the older variant: NotEquals of the untyped nil literal and
the address of the local parameter, compared by the built-in pointer
equality operator; a pointer to interface is not a protobuf message. When
the inner check fails the test is halted fatally. -/
def NotNil (addr : Nat) (value : GoAny) : Bool × List Event :=
  let r := NotEquals ptrAnyTypeName ptrAnyRender (fun _ => false)
    (fun _ _ => false) opEqPtr none (some (NNPtr.mk addr value))
  (r.1, r.2 ++ (if r.1 then []
    else [Event.fatalf ("variable of type " ++ goAnyTypeName value ++
      " should not be nil")]))

/-- Nil of the older variant: Equals of the untyped nil literal and the
value under the built-in equality operator on interface values; the nil
interface is not a protobuf message. -/
def Nil (value : GoAny) : Bool × List Event :=
  Equals goAnyTypeName goAnyRender (fun _ => false) (fun _ _ => false)
    opEqAny GoAny.nilInterface value

/-- ErrorIs of the older variant: identical to the evolved one. -/
def ErrorIs (expected actual : Option GoError) : Bool × List Event :=
  EqualsFunc errTypeName errRender expected actual
    (fun e a => errorsIs a e)

end AssertOld

/-- An error wrapped n times around a core error, carrying the given id
and message at every layer. -/
def wrapTower (i : Nat) (m : String) : Nat → GoError → GoError
  | 0, e => e
  | Nat.succ k, e => GoError.wrap i m (wrapTower i m k e)

/-- The boolean chain walk of errors.Is agrees with the propositional
chain-membership notion of the specification. -/
theorem errorsIsChain_iff (t e : GoError) :
    errorsIsChain e t = true ↔ InChain t e := by
  induction e with
  | base i m =>
      simp only [errorsIsChain, decide_eq_true_eq]
      constructor
      · intro h
        subst h
        exact InChain.here
      · intro h
        cases h
        rfl
  | wrap i m inner ih =>
      simp only [errorsIsChain, Bool.or_eq_true, decide_eq_true_eq, ih]
      constructor
      · intro h
        rcases h with h | h
        · subst h
          exact InChain.here
        · exact InChain.there i m inner h
      · intro h
        cases h with
        | here => exact Or.inl rfl
        | there _ _ _ h => exact Or.inr h

/-- A wrap tower of any height keeps the core error in the chain. -/
theorem inChain_wrapTower (i : Nat) (m : String) (n : Nat) (e : GoError) :
    InChain e (wrapTower i m n e) := by
  induction n with
  | zero => exact InChain.here
  | succ k ih => exact InChain.there i m (wrapTower i m k e) ih

/-- A pair of a success boolean and the event list the reporting pattern
of the library emits carries at most one event, and carries none exactly
on success. -/
theorem reportPair_spec (ok : Bool) (ev : Event) :
    (ok, if ok then ([] : List Event) else [ev]).2.length ≤ 1
  ∧ ((ok, if ok then ([] : List Event) else [ev]).1 = true
      ↔ (ok, if ok then ([] : List Event) else [ev]).2 = []) := by
  cases ok <;> simp

/-- C1: for the evolved structural-equality variant, Equals on two
pointers to structurally equal structs (at any two addresses) returns true
and records nothing, and on pointers to different structs returns false
and records exactly one failure whose message renders the actual value 2
and bar and the expected value 1 and foo. -/
theorem equals_struct_ptr_scenario :
    ∀ a1 a2 : Nat,
      Assert.Equals structPtrTypeName structPtrRender cmpStructPtrEq
          (some (NNPtr.mk a1 (SomeStruct.mk 1 "foo")))
          (some (NNPtr.mk a2 (SomeStruct.mk 1 "foo"))) = (true, [])
    ∧ Assert.Equals structPtrTypeName structPtrRender cmpStructPtrEq
          (some (NNPtr.mk a1 (SomeStruct.mk 1 "foo")))
          (some (NNPtr.mk a2 (SomeStruct.mk 2 "bar")))
        = (false, [Event.errorf
            ("*assert.SomeStruct = &\x7b2 bar\x7d, want &\x7b1 foo\x7d")]) := by
  intro a1 a2
  exact ⟨rfl, rfl⟩

/-- C2: the code of NotNil, in both variants, compares nil against the
address of its own parameter, which is never nil, so the call returns true
with no reporting action for every input; in particular it never halts,
not even on the nil interface or on a boxed nil typed pointer. -/
theorem notNil_never_halts :
    ∀ (addr : Nat) (v : GoAny),
      Assert.NotNil addr v = (true, [])
    ∧ AssertOld.NotNil addr v = (true, []) := by
  intro addr v
  exact ⟨rfl, rfl⟩

/-- C8: the two historical variants of Equals are not behaviorally
equivalent: on two distinct pointers to structurally equal structs the
older operator-equality variant returns false while the evolved
structural-comparison variant returns true. -/
theorem variants_not_equivalent :
    (AssertOld.Equals structPtrTypeName structPtrRender (fun _ => false)
        (fun _ _ => false) opEqPtr
        (some (NNPtr.mk 0 (SomeStruct.mk 1 "foo")))
        (some (NNPtr.mk 1 (SomeStruct.mk 1 "foo")))).1 = false
  ∧ (Assert.Equals structPtrTypeName structPtrRender cmpStructPtrEq
        (some (NNPtr.mk 0 (SomeStruct.mk 1 "foo")))
        (some (NNPtr.mk 1 (SomeStruct.mk 1 "foo")))).1 = true := by
  exact ⟨rfl, rfl⟩

/-- C3: ErrorIs returns true exactly when the actual error is, or wraps
anywhere in its chain, the expected error (in both variants); it is true
for any error and any number of wrapping layers, with no reporting action;
and it is false for two distinct, independently constructed errors with
identical message text, recording exactly one soft failure. -/
theorem errorIs_chain_spec :
    (∀ t a : GoError,
        ((Assert.ErrorIs (some t) (some a)).1 = true ↔ InChain t a)
      ∧ ((AssertOld.ErrorIs (some t) (some a)).1 = true ↔ InChain t a))
  ∧ (∀ (E : GoError) (i : Nat) (m : String) (n : Nat),
        Assert.ErrorIs (some E) (some (wrapTower i m n E)) = (true, []))
  ∧ (∀ (i j : Nat) (m : String), i ≠ j →
        Assert.ErrorIs (some (GoError.base i m)) (some (GoError.base j m))
          = (false, [Event.errorf
              ("*errors.errorString = " ++ m ++ ", want " ++ m)])) := by
  refine ⟨?_, ?_, ?_⟩
  · intro t a
    constructor <;>
      simpa [Assert.ErrorIs, AssertOld.ErrorIs, Assert.EqualsFunc,
        AssertOld.EqualsFunc, errorsIs] using errorsIsChain_iff t a
  · intro E i m n
    have h : errorsIsChain (wrapTower i m n E) E = true :=
      (errorsIsChain_iff E (wrapTower i m n E)).mpr (inChain_wrapTower i m n E)
    simp [Assert.ErrorIs, Assert.EqualsFunc, errorsIs, h]
  · intro i j m h
    have hne : GoError.base j m ≠ GoError.base i m := by
      intro hc
      injection hc with h1 h2
      exact h h1.symm
    simp [Assert.ErrorIs, Assert.EqualsFunc, errorsIs, errorsIsChain,
      errTypeName, errRender, errMsg, hne]

/-- C3 witness: at two distinct base errors sharing the message boom, and
at a double wrap of a base error, the theorem instantiates as stated. -/
theorem errorIs_chain_spec_witness :
    Assert.ErrorIs (some (GoError.base 0 "boom"))
        (some (wrapTower 7 "outer" 2 (GoError.base 0 "boom"))) = (true, [])
  ∧ Assert.ErrorIs (some (GoError.base 0 "boom"))
        (some (GoError.base 1 "boom"))
      = (false, [Event.errorf
          ("*errors.errorString = " ++ "boom" ++ ", want " ++ "boom")]) :=
  ⟨errorIs_chain_spec.2.1 (GoError.base 0 "boom") 7 "outer" 2,
   errorIs_chain_spec.2.2 0 1 "boom" (by decide)⟩

/-- C4 counterexample: Is at the string value foo and the target type int
halts with the message naming the pointer type star-int, which differs
from the message the claim states, naming the target type int itself. -/
theorem is_message_counterexample :
    Assert.Is GoType.tInt (GoAny.strVal "foo")
      = (none, [Event.fatalf ("foo is not of type *int")])
  ∧ "foo is not of type *int" ≠ "foo is not of type " ++ goTypeName GoType.tInt := by
  exact ⟨rfl, by decide⟩

/-- C4 amended: Is returns the value unchanged when its dynamic type is
the target type, and otherwise halts the test fatally with the message
naming the pointer type to the target (the code formats a fresh pointer
with the type verb), in both variants. -/
theorem is_amended_spec :
    (∀ (T : GoType) (v : GoAny), dynTypeOf v = some T →
        Assert.Is T v = (some v, []) ∧ AssertOld.Is T v = (some v, []))
  ∧ (∀ (T : GoType) (v : GoAny), dynTypeOf v ≠ some T →
        Assert.Is T v = (none, [Event.fatalf
            (goAnyRender v ++ " is not of type *" ++ goTypeName T)])
      ∧ AssertOld.Is T v = (none, [Event.fatalf
            (goAnyRender v ++ " is not of type *" ++ goTypeName T)])) := by
  constructor
  · intro T v h
    constructor <;> simp [Assert.Is, AssertOld.Is, typeAssert, h]
  · intro T v h
    constructor <;> simp [Assert.Is, AssertOld.Is, typeAssert, h]

/-- C4 witness: the amended theorem instantiated at an int value whose
dynamic type is int, and at a string value against the target type int. -/
theorem is_amended_spec_witness :
    (Assert.Is GoType.tInt (GoAny.intVal 5) = (some (GoAny.intVal 5), [])
      ∧ AssertOld.Is GoType.tInt (GoAny.intVal 5)
          = (some (GoAny.intVal 5), []))
  ∧ (Assert.Is GoType.tInt (GoAny.strVal "foo")
        = (none, [Event.fatalf (goAnyRender (GoAny.strVal "foo") ++
            " is not of type *" ++ goTypeName GoType.tInt)])
      ∧ AssertOld.Is GoType.tInt (GoAny.strVal "foo")
          = (none, [Event.fatalf (goAnyRender (GoAny.strVal "foo") ++
              " is not of type *" ++ goTypeName GoType.tInt)])) :=
  ⟨is_amended_spec.1 GoType.tInt (GoAny.intVal 5) (by decide),
   is_amended_spec.2 GoType.tInt (GoAny.strVal "foo") (by decide)⟩

/-- C5: NotEquals returns the exact logical negation of Equals on every
input pair, for every rendering, every comparison-option instantiation of
the structural engine in the evolved variant, and every dispatch between
protobuf semantic equality and operator equality in the older variant. -/
theorem notEquals_negates_equals :
    (∀ (α : Type) (tn r : α → String) (c : α → α → Bool) (e a : α),
        (Assert.NotEquals tn r c e a).1 = !(Assert.Equals tn r c e a).1)
  ∧ (∀ (α : Type) (tn r : α → String) (isMsg : α → Bool)
        (p o : α → α → Bool) (e a : α),
        (AssertOld.NotEquals tn r isMsg p o e a).1
          = !(AssertOld.Equals tn r isMsg p o e a).1) := by
  constructor
  · intro α tn r c e a
    rfl
  · intro α tn r isMsg p o e a
    cases hm : isMsg e <;>
      simp [AssertOld.NotEquals, AssertOld.Equals, AssertOld.EqualsFunc, hm]

/-- C6 counterexample: a failing NotEquals call of the evolved variant, on
two pointers to structurally equal structs, records a message with an
unequal sign, which differs from the single equals-sign shape the claim
states for every soft-assertion failure message. -/
theorem notEquals_message_counterexample :
    (Assert.NotEquals structPtrTypeName structPtrRender cmpStructPtrEq
        (some (NNPtr.mk 0 (SomeStruct.mk 1 "foo")))
        (some (NNPtr.mk 1 (SomeStruct.mk 1 "foo")))).2
      = [Event.errorf
          ("*assert.SomeStruct != &\x7b1 foo\x7d, want &\x7b1 foo\x7d")]
  ∧ "*assert.SomeStruct != &\x7b1 foo\x7d, want &\x7b1 foo\x7d"
      ≠ "*assert.SomeStruct = &\x7b1 foo\x7d, want &\x7b1 foo\x7d" := by
  exact ⟨rfl, by decide⟩

/-- C6 amended: every soft-assertion failure message renders the runtime
type of the actual value, the actual value and the expected value; Equals,
EqualsFunc and ErrorIs of both variants and the older NotEquals use the
equals-sign shape, while the evolved NotEquals uses an unequal sign
between the type and the actual value. -/
theorem failure_message_shapes :
    (∀ (α : Type) (tn r : α → String) (e a : α) (f : α → α → Bool),
        (Assert.EqualsFunc tn r e a f).2
          = if f e a then []
            else [Event.errorf (tn a ++ " = " ++ r a ++ ", want " ++ r e)])
  ∧ (∀ (α : Type) (tn r : α → String) (c : α → α → Bool) (e a : α),
        (Assert.Equals tn r c e a).2
          = if c e a then []
            else [Event.errorf (tn a ++ " = " ++ r a ++ ", want " ++ r e)])
  ∧ (∀ (α : Type) (tn r : α → String) (c : α → α → Bool) (e a : α),
        (Assert.NotEquals tn r c e a).2
          = if c e a then
              [Event.errorf (tn a ++ " != " ++ r a ++ ", want " ++ r e)]
            else [])
  ∧ (∀ (e a : Option GoError),
        (Assert.ErrorIs e a).2
          = if errorsIs a e then []
            else [Event.errorf (errTypeName a ++ " = " ++ errRender a ++
                ", want " ++ errRender e)])
  ∧ (∀ (α : Type) (tn r : α → String) (e a : α) (f : α → α → Bool),
        (AssertOld.EqualsFunc tn r e a f).2
          = if f e a then []
            else [Event.errorf (tn a ++ " = " ++ r a ++ ", want " ++ r e)])
  ∧ (∀ (α : Type) (tn r : α → String) (isMsg : α → Bool)
        (p o : α → α → Bool) (e a : α),
        (AssertOld.Equals tn r isMsg p o e a).2
          = if (if isMsg e then p e a else o e a) then []
            else [Event.errorf (tn a ++ " = " ++ r a ++ ", want " ++ r e)])
  ∧ (∀ (α : Type) (tn r : α → String) (isMsg : α → Bool)
        (p o : α → α → Bool) (e a : α),
        (AssertOld.NotEquals tn r isMsg p o e a).2
          = if (if isMsg e then p e a else o e a) then
              [Event.errorf (tn a ++ " = " ++ r a ++ ", want " ++ r e)]
            else [])
  ∧ (∀ (e a : Option GoError),
        (AssertOld.ErrorIs e a).2
          = if errorsIs a e then []
            else [Event.errorf (errTypeName a ++ " = " ++ errRender a ++
                ", want " ++ errRender e)]) := by
  refine ⟨?_, ?_, ?_, ?_, ?_, ?_, ?_, ?_⟩
  · intro α tn r e a f
    rfl
  · intro α tn r c e a
    rfl
  · intro α tn r c e a
    cases h : c e a <;> simp [Assert.NotEquals, h]
  · intro e a
    rfl
  · intro α tn r e a f
    rfl
  · intro α tn r isMsg p o e a
    rfl
  · intro α tn r isMsg p o e a
    cases hm : isMsg e
    · cases h : o e a <;> simp [AssertOld.NotEquals, hm, h]
    · cases h : p e a <;> simp [AssertOld.NotEquals, hm, h]
  · intro e a
    rfl

/-- C7: every assertion entry point of both variants performs at most one
reporting action per call, and performs none exactly when the call
succeeds: no call ever writes twice to the sink. -/
theorem single_reporting_action :
    (∀ (α : Type) (tn r : α → String) (e a : α) (f : α → α → Bool),
        (Assert.EqualsFunc tn r e a f).2.length ≤ 1
      ∧ ((Assert.EqualsFunc tn r e a f).1 = true
          ↔ (Assert.EqualsFunc tn r e a f).2 = []))
  ∧ (∀ (α : Type) (tn r : α → String) (c : α → α → Bool) (e a : α),
        (Assert.Equals tn r c e a).2.length ≤ 1
      ∧ ((Assert.Equals tn r c e a).1 = true
          ↔ (Assert.Equals tn r c e a).2 = []))
  ∧ (∀ (α : Type) (tn r : α → String) (c : α → α → Bool) (e a : α),
        (Assert.NotEquals tn r c e a).2.length ≤ 1
      ∧ ((Assert.NotEquals tn r c e a).1 = true
          ↔ (Assert.NotEquals tn r c e a).2 = []))
  ∧ (∀ (T : GoType) (v : GoAny),
        (Assert.Is T v).2.length ≤ 1
      ∧ ((Assert.Is T v).1.isSome = true ↔ (Assert.Is T v).2 = []))
  ∧ (∀ (c : GoError → GoError → Bool) (err : Option GoError),
        (Assert.NoError c err).2.length ≤ 1
      ∧ ((Assert.NoError c err).1 = true ↔ (Assert.NoError c err).2 = []))
  ∧ (∀ (addr : Nat) (v : GoAny),
        (Assert.NotNil addr v).2.length ≤ 1
      ∧ ((Assert.NotNil addr v).1 = true ↔ (Assert.NotNil addr v).2 = []))
  ∧ (∀ v : GoAny,
        (Assert.Nil v).2.length ≤ 1
      ∧ ((Assert.Nil v).1 = true ↔ (Assert.Nil v).2 = []))
  ∧ (∀ (e a : Option GoError),
        (Assert.ErrorIs e a).2.length ≤ 1
      ∧ ((Assert.ErrorIs e a).1 = true ↔ (Assert.ErrorIs e a).2 = []))
  ∧ (∀ (α : Type) (tn r : α → String) (e a : α) (f : α → α → Bool),
        (AssertOld.EqualsFunc tn r e a f).2.length ≤ 1
      ∧ ((AssertOld.EqualsFunc tn r e a f).1 = true
          ↔ (AssertOld.EqualsFunc tn r e a f).2 = []))
  ∧ (∀ (α : Type) (tn r : α → String) (isMsg : α → Bool)
        (p o : α → α → Bool) (e a : α),
        (AssertOld.Equals tn r isMsg p o e a).2.length ≤ 1
      ∧ ((AssertOld.Equals tn r isMsg p o e a).1 = true
          ↔ (AssertOld.Equals tn r isMsg p o e a).2 = []))
  ∧ (∀ (α : Type) (tn r : α → String) (isMsg : α → Bool)
        (p o : α → α → Bool) (e a : α),
        (AssertOld.NotEquals tn r isMsg p o e a).2.length ≤ 1
      ∧ ((AssertOld.NotEquals tn r isMsg p o e a).1 = true
          ↔ (AssertOld.NotEquals tn r isMsg p o e a).2 = []))
  ∧ (∀ (T : GoType) (v : GoAny),
        (AssertOld.Is T v).2.length ≤ 1
      ∧ ((AssertOld.Is T v).1.isSome = true ↔ (AssertOld.Is T v).2 = []))
  ∧ (∀ err : Option GoError,
        (AssertOld.NoError err).2.length ≤ 1
      ∧ ((AssertOld.NoError err).1 = true ↔ (AssertOld.NoError err).2 = []))
  ∧ (∀ (addr : Nat) (v : GoAny),
        (AssertOld.NotNil addr v).2.length ≤ 1
      ∧ ((AssertOld.NotNil addr v).1 = true
          ↔ (AssertOld.NotNil addr v).2 = []))
  ∧ (∀ v : GoAny,
        (AssertOld.Nil v).2.length ≤ 1
      ∧ ((AssertOld.Nil v).1 = true ↔ (AssertOld.Nil v).2 = []))
  ∧ (∀ (e a : Option GoError),
        (AssertOld.ErrorIs e a).2.length ≤ 1
      ∧ ((AssertOld.ErrorIs e a).1 = true
          ↔ (AssertOld.ErrorIs e a).2 = [])) := by
  refine ⟨?_, ?_, ?_, ?_, ?_, ?_, ?_, ?_, ?_, ?_, ?_, ?_, ?_, ?_, ?_, ?_⟩
  · intro α tn r e a f
    exact reportPair_spec (f e a)
      (Event.errorf (tn a ++ " = " ++ r a ++ ", want " ++ r e))
  · intro α tn r c e a
    exact reportPair_spec (c e a)
      (Event.errorf (tn a ++ " = " ++ r a ++ ", want " ++ r e))
  · intro α tn r c e a
    exact reportPair_spec (!c e a)
      (Event.errorf (tn a ++ " != " ++ r a ++ ", want " ++ r e))
  · intro T v
    cases h : typeAssert T v <;> simp [Assert.Is, h]
  · intro c err
    exact reportPair_spec (goCmpErr c none err)
      (Event.errorf (errTypeName err ++ " = " ++ errRender err ++
        ", want " ++ errRender none))
  · intro addr v
    simp [show Assert.NotNil addr v = (true, []) from rfl]
  · intro v
    exact reportPair_spec (goCmpAny GoAny.nilInterface v)
      (Event.errorf (goAnyTypeName v ++ " = " ++ goAnyRender v ++
        ", want " ++ goAnyRender GoAny.nilInterface))
  · intro e a
    exact reportPair_spec (errorsIs a e)
      (Event.errorf (errTypeName a ++ " = " ++ errRender a ++
        ", want " ++ errRender e))
  · intro α tn r e a f
    exact reportPair_spec (f e a)
      (Event.errorf (tn a ++ " = " ++ r a ++ ", want " ++ r e))
  · intro α tn r isMsg p o e a
    exact reportPair_spec (if isMsg e then p e a else o e a)
      (Event.errorf (tn a ++ " = " ++ r a ++ ", want " ++ r e))
  · intro α tn r isMsg p o e a
    exact reportPair_spec (if isMsg e then !p e a else !o e a)
      (Event.errorf (tn a ++ " = " ++ r a ++ ", want " ++ r e))
  · intro T v
    cases h : typeAssert T v <;> simp [AssertOld.Is, h]
  · intro err
    exact reportPair_spec (opEqErr none err)
      (Event.errorf (errTypeName err ++ " = " ++ errRender err ++
        ", want " ++ errRender none))
  · intro addr v
    simp [show AssertOld.NotNil addr v = (true, []) from rfl]
  · intro v
    exact reportPair_spec (opEqAny GoAny.nilInterface v)
      (Event.errorf (goAnyTypeName v ++ " = " ++ goAnyRender v ++
        ", want " ++ goAnyRender GoAny.nilInterface))
  · intro e a
    exact reportPair_spec (errorsIs a e)
      (Event.errorf (errTypeName a ++ " = " ++ errRender a ++
        ", want " ++ errRender e))

/-- C9: NoError returns true with no reporting action exactly on the nil
error, and on every non-nil error returns false recording exactly one
soft failure, in both variants. -/
theorem noError_iff_nil_error :
    (∀ (c : GoError → GoError → Bool),
        Assert.NoError c none = (true, [])
      ∧ ∀ e : GoError, Assert.NoError c (some e)
          = (false, [Event.errorf (errTypeName (some e) ++ " = " ++
              errMsg e ++ ", want " ++ "<nil>")]))
  ∧ (AssertOld.NoError none = (true, [])
      ∧ ∀ e : GoError, AssertOld.NoError (some e)
          = (false, [Event.errorf (errTypeName (some e) ++ " = " ++
              errMsg e ++ ", want " ++ "<nil>")])) := by
  exact ⟨fun c => ⟨rfl, fun e => rfl⟩, rfl, fun e => rfl⟩

/-- C10: Nil returns true only on the nil interface itself; on every
non-nil interface boxing a nil typed pointer it returns false and records
one failure, in both variants. -/
theorem nil_only_nil_interface :
    (∀ v : GoAny,
        ((Assert.Nil v).1 = true ↔ v = GoAny.nilInterface)
      ∧ ((AssertOld.Nil v).1 = true ↔ v = GoAny.nilInterface))
  ∧ Assert.Nil (GoAny.intPtr none)
      = (false, [Event.errorf ("*int = <nil>, want <nil>")])
  ∧ Assert.Nil (GoAny.structPtr none)
      = (false, [Event.errorf ("*assert.SomeStruct = <nil>, want <nil>")])
  ∧ AssertOld.Nil (GoAny.intPtr none)
      = (false, [Event.errorf ("*int = <nil>, want <nil>")]) := by
  refine ⟨?_, rfl, rfl, rfl⟩
  intro v
  constructor <;> cases v <;>
    simp [Assert.Nil, AssertOld.Nil, Assert.Equals, AssertOld.Equals,
      Assert.EqualsFunc, AssertOld.EqualsFunc, goCmpAny, opEqAny]
